import Mathlib

/-!
Verification of the possumbly invite / voting / gallery core.

The definitions below are a shallow embedding of the TypeScript source:
the sql.js tables become Lean lists of rows, the query helpers in
db/schema.ts become list functions, and each Express route handler
becomes a pure function from the relevant table states and request data
to a response together with the updated table states.  Route guards
(isAuthenticated / hasInvite / isAdmin from middleware/auth.ts) run in
front of the handlers; where a claim is about a handler the guard chain
is modelled by the Option User caller argument or stated as a
hypothesis.
-/

set_option maxHeartbeats 1000000
set_option autoImplicit false

namespace Possumbly

/-- JS String.prototype.toUpperCase restricted to the characters the
routes handle, written over the character list so that it reduces. -/
def jsToUpper (s : String) : String :=
  ⟨s.data.map Char.toUpper⟩

/-- A whitespace character removed by JS String.prototype.trim. -/
def isJsSpace (c : Char) : Bool :=
  c == ' ' || c == '\t' || c == '\n' || c == '\r' || c == '\x0b' || c == '\x0c'

/-- JS String.prototype.trim: strip whitespace from both ends. -/
def jsTrim (s : String) : String :=
  ⟨((s.data.dropWhile isJsSpace).reverse.dropWhile isJsSpace).reverse⟩

/-- User row (db/schema.ts, CREATE TABLE users).  Only the columns the
claims touch are kept: id, role (admin or user) and the
invite-redeemed flag (INTEGER 0/1 in SQL, Bool here). -/
structure User where
  id : String
  role : String
  invite_redeemed : Bool
  deriving Repr, DecidableEq

/-- Invite-code row (db/schema.ts, CREATE TABLE invite_codes). -/
structure InviteCode where
  id : String
  code : String
  created_by : Option String
  used_by : Option String
  created_at : Int
  used_at : Option Int
  deriving Repr, DecidableEq

/-- Meme row (db/schema.ts, CREATE TABLE memes); only the columns used
by the vote and gallery routes. -/
structure Meme where
  id : String
  is_public : Bool
  created_at : Int
  deriving Repr, DecidableEq

/-- Vote row (db/schema.ts, CREATE TABLE votes).  The SQL schema also
declares UNIQUE(meme_id, user_id); that constraint is the predicate
votesUnique below. -/
structure Vote where
  id : String
  meme_id : String
  user_id : String
  vote_type : Int
  created_at : Int
  deriving Repr, DecidableEq

/-- Generic route outcome: ok body, or an error status plus message. -/
inductive RouteResult (α : Type) where
  | ok (body : α)
  | err (status : Nat) (msg : String)
  deriving Repr, DecidableEq

/-! ### Query helpers (db/schema.ts) -/

/-- userQueries.findById: SELECT * FROM users WHERE id = ? -/
def findUserById (users : List User) (id : String) : Option User :=
  users.find? (fun u => u.id == id)

/-- userQueries.updateInviteRedeemed: UPDATE users SET invite_redeemed = 1 WHERE id = ? -/
def updateInviteRedeemed (users : List User) (id : String) : List User :=
  users.map (fun u => if u.id == id then { u with invite_redeemed := true } else u)

/-- userQueries.setRole: UPDATE users SET role = ? WHERE id = ? -/
def setRole (users : List User) (role id : String) : List User :=
  users.map (fun u => if u.id == id then { u with role := role } else u)

/-- inviteQueries.findByCode: SELECT * FROM invite_codes WHERE code = ? -/
def findInviteByCode (invites : List InviteCode) (code : String) : Option InviteCode :=
  invites.find? (fun i => i.code == code)

/-- inviteQueries.redeem: UPDATE invite_codes SET used_by = ?, used_at = ? WHERE code = ? -/
def redeemInviteRows (invites : List InviteCode) (usedBy : String) (usedAt : Int)
    (code : String) : List InviteCode :=
  invites.map (fun i =>
    if i.code == code then { i with used_by := some usedBy, used_at := some usedAt } else i)

/-- memeQueries.findById: SELECT * FROM memes WHERE id = ? -/
def findMemeById (memes : List Meme) (id : String) : Option Meme :=
  memes.find? (fun m => m.id == id)

/-- voteQueries.findByMemeAndUser: SELECT * FROM votes WHERE meme_id = ? AND user_id = ? -/
def findVoteByMemeAndUser (votes : List Vote) (memeId userId : String) : Option Vote :=
  votes.find? (fun v => v.meme_id == memeId && v.user_id == userId)

/-- voteQueries.create: INSERT INTO votes VALUES (...) -/
def createVote (votes : List Vote) (v : Vote) : List Vote :=
  votes ++ [v]

/-- voteQueries.update: UPDATE votes SET vote_type = ? WHERE meme_id = ? AND user_id = ? -/
def updateVoteType (votes : List Vote) (voteType : Int) (memeId userId : String) : List Vote :=
  votes.map (fun v =>
    if v.meme_id == memeId && v.user_id == userId then { v with vote_type := voteType } else v)

/-- voteQueries.delete: DELETE FROM votes WHERE meme_id = ? AND user_id = ? -/
def deleteVote (votes : List Vote) (memeId userId : String) : List Vote :=
  votes.filter (fun v => !(v.meme_id == memeId && v.user_id == userId))

/-- The aggregate returned by voteQueries.getVoteCounts. -/
structure Counts where
  upvotes : Nat
  downvotes : Nat
  score : Int
  deriving Repr, DecidableEq

/-- voteQueries.getVoteCounts: COUNT of vote_type = 1 rows, COUNT of
vote_type = -1 rows, and their difference. -/
def getVoteCounts (votes : List Vote) (memeId : String) : Counts :=
  let upvotes := (votes.filter (fun v => v.meme_id == memeId && v.vote_type == 1)).length
  let downvotes := (votes.filter (fun v => v.meme_id == memeId && v.vote_type == -1)).length
  { upvotes := upvotes, downvotes := downvotes, score := (upvotes : Int) - (downvotes : Int) }

/-- The UNIQUE(meme_id, user_id) constraint of CREATE TABLE votes: no
two rows of the table share both keys. -/
def votesUnique (votes : List Vote) : Prop :=
  votes.Pairwise (fun v w => ¬ (v.meme_id = w.meme_id ∧ v.user_id = w.user_id))

/-! ### Input validation (routes/invites.ts, routes/votes.ts, routes/admin.ts) -/

/-- One character of the id allow-list [a-zA-Z0-9_-]. -/
def isIdChar (c : Char) : Bool :=
  (('a' ≤ c && c ≤ 'z') || ('A' ≤ c && c ≤ 'Z') || ('0' ≤ c && c ≤ '9')
    || c == '_' || c == '-')

/-- isValidId: the regex test for one or more allow-listed characters. -/
def isValidId (id : String) : Bool :=
  id.data.length > 0 && id.data.all isIdChar

/-- One uppercase hexadecimal character [A-F0-9]. -/
def isHexUpChar (c : Char) : Bool :=
  ('A' ≤ c && c ≤ 'F') || ('0' ≤ c && c ≤ '9')

/-- isValidInviteCode: the regex test for exactly 12 uppercase hex
characters applied to the upper-cased input. -/
def isValidInviteCode (code : String) : Bool :=
  ((jsToUpper code).data.length == 12) && (jsToUpper code).data.all isHexUpChar

/-! ### Invite redemption route (routes/invites.ts, POST /redeem) -/

/-- POST /invites/redeem handler (after the isAuthenticated guard).
The body code is an Option String: none stands for a missing or
non-string body field, and the empty string is JS-falsy so both hit the
"Invite code is required" branch.  Returns the response and the updated
invite and user tables. -/
def redeem (invites : List InviteCode) (users : List User) (user : User)
    (code : Option String) (now : Int) :
    RouteResult String × List InviteCode × List User :=
  match code with
  | none => (.err 400 "Invite code is required", invites, users)
  | some c =>
    if c == "" then (.err 400 "Invite code is required", invites, users)
    else
      let normalizedCode := jsToUpper (jsTrim c)
      if !isValidInviteCode normalizedCode then
        (.err 400 "Invalid invite code", invites, users)
      else if user.invite_redeemed || user.role == "admin" then
        (.err 400 "You already have access", invites, users)
      else
        match findInviteByCode invites normalizedCode with
        | none => (.err 400 "Invalid invite code", invites, users)
        | some invite =>
          if invite.used_by.isSome then
            (.err 400 "Invalid invite code", invites, users)
          else
            (.ok "Invite code redeemed successfully",
              redeemInviteRows invites user.id now normalizedCode,
              updateInviteRedeemed users user.id)

/-! ### Admin routes (routes/admin.ts) -/

/-- POST /admin/bootstrap handler.  The caller is an Option User: none
when req.isAuthenticated() is false.  Note the handler counts admins
before checking authentication. -/
def bootstrap (users : List User) (caller : Option User) :
    RouteResult String × List User :=
  let admins := users.filter (fun u => u.role == "admin")
  if admins.length > 0 then
    (.err 403 "Admin already exists", users)
  else
    match caller with
    | none => (.err 401 "Must be authenticated to bootstrap admin", users)
    | some user =>
      (.ok "You are now an admin",
        updateInviteRedeemed (setRole users "admin" user.id) user.id)

/-- PATCH /admin/users/:id/role handler body (after the isAdmin guard).
role is the body field; none stands for a missing value. -/
def updateUserRole (users : List User) (currentUser : User) (id : String)
    (role : Option String) : RouteResult String × List User :=
  if !isValidId id then
    (.err 400 "Invalid user ID", users)
  else
    match role with
    | none => (.err 400 "Invalid role. Must be \"admin\" or \"user\"", users)
    | some r =>
      if !(r == "admin" || r == "user") then
        (.err 400 "Invalid role. Must be \"admin\" or \"user\"", users)
      else
        match findUserById users id with
        | none => (.err 404 "User not found", users)
        | some _ =>
          if currentUser.id == id && r != "admin" then
            (.err 400 "Cannot demote yourself", users)
          else
            (.ok "success", setRole users r id)

/-- PATCH /admin/users/:id/role with the isAdmin middleware in front:
401 when unauthenticated, 403 when the caller is not an admin. -/
def patchUserRole (users : List User) (caller : Option User) (id : String)
    (role : Option String) : RouteResult String × List User :=
  match caller with
  | none => (.err 401 "Unauthorized", users)
  | some user =>
    if user.role == "admin" then updateUserRole users user id role
    else (.err 403 "Admin access required", users)

/-! ### Vote routes (routes/votes.ts) -/

/-- The JSON body returned by the vote routes. -/
structure VoteResp where
  upvotes : Nat
  downvotes : Nat
  score : Int
  userVote : Option Int
  deriving Repr, DecidableEq

/-- The counts recomputed by voteQueries.getVoteCounts together with
the userVote field the handlers attach. -/
def voteRespOf (votes : List Vote) (memeId : String) (userVote : Option Int) : VoteResp :=
  let c := getVoteCounts votes memeId
  { upvotes := c.upvotes, downvotes := c.downvotes, score := c.score, userVote := userVote }

/-- POST /votes/:memeId handler (after the hasInvite guard and the
rate limiter).  newId and now stand for the nanoid() and Date.now()
values used when a fresh row is inserted.  Returns the response and the
updated votes table. -/
def castVote (memes : List Meme) (votes : List Vote) (user : User) (memeId : String)
    (vote : Int) (newId : String) (now : Int) : RouteResult VoteResp × List Vote :=
  if !isValidId memeId then
    (.err 400 "Invalid meme ID", votes)
  else if vote != 1 && vote != -1 then
    (.err 400 "Vote must be 1 (upvote) or -1 (downvote)", votes)
  else
    match findMemeById memes memeId with
    | none => (.err 404 "Meme not found", votes)
    | some meme =>
      if !meme.is_public then
        (.err 403 "Can only vote on public memes", votes)
      else
        match findVoteByMemeAndUser votes memeId user.id with
        | some existingVote =>
          if existingVote.vote_type == vote then
            (.ok (voteRespOf votes memeId (some vote)), votes)
          else
            let votes1 := updateVoteType votes vote memeId user.id
            (.ok (voteRespOf votes1 memeId (some vote)), votes1)
        | none =>
          let votes1 := createVote votes
            { id := newId, meme_id := memeId, user_id := user.id,
              vote_type := vote, created_at := now }
          (.ok (voteRespOf votes1 memeId (some vote)), votes1)

/-- DELETE /votes/:memeId handler (after the hasInvite guard and the
rate limiter). -/
def removeVote (memes : List Meme) (votes : List Vote) (user : User) (memeId : String) :
    RouteResult VoteResp × List Vote :=
  if !isValidId memeId then
    (.err 400 "Invalid meme ID", votes)
  else
    match findMemeById memes memeId with
    | none => (.err 404 "Meme not found", votes)
    | some _ =>
      let votes1 := deleteVote votes memeId user.id
      (.ok (voteRespOf votes1 memeId none), votes1)

/-- One cast or remove request against the votes table, with the
request data each handler reads. -/
inductive VoteOp where
  | cast (user : User) (memeId : String) (vote : Int) (newId : String) (now : Int)
  | remove (user : User) (memeId : String)

/-- The votes table after one vote route request. -/
def applyVoteOp (memes : List Meme) (votes : List Vote) : VoteOp → List Vote
  | .cast user memeId vote newId now => (castVote memes votes user memeId vote newId now).2
  | .remove user memeId => (removeVote memes votes user memeId).2

/-- The votes table after a sequence of vote route requests. -/
def applyVoteOps (memes : List Meme) (votes : List Vote) (ops : List VoteOp) : List Vote :=
  ops.foldl (applyVoteOp memes) votes

/-! ### Gallery route (routes/gallery.ts) -/

/-- JS `x || d` applied to the result of parseInt: the parse result is
an Option Int (none for NaN), and 0 is falsy so it also falls back to
the default. -/
def jsOrDefault (v : Option Int) (d : Int) : Int :=
  match v with
  | none => d
  | some n => if n = 0 then d else n

/-- pageNum = Math.max(1, parseInt(page, 10) || 1). -/
def effPage (page : Option Int) : Int :=
  max 1 (jsOrDefault page 1)

/-- limitNum = Math.min(50, Math.max(1, parseInt(limit, 10) || 20)). -/
def effLimit (limit : Option Int) : Int :=
  min 50 (max 1 (jsOrDefault limit 20))

/-- The pagination object of the gallery response. -/
structure PageInfo where
  page : Int
  limit : Int
  total : Nat
  totalPages : Nat
  hasNext : Bool
  hasPrev : Bool
  deriving Repr, DecidableEq

/-- The tail of the gallery handler: Math.ceil(total / limitNum) pages,
offset (pageNum - 1) * limitNum, slice(offset, offset + limitNum), and
the pagination fields of the response.  limitNum is always effLimit of
the query so it lies in [1, 50]; ceiling division is (t + l - 1) / l. -/
def paginateGallery {α : Type} (sortedMemes : List α) (pageNum limitNum : Int) :
    List α × PageInfo :=
  let total := sortedMemes.length
  let totalPages := (total + limitNum.toNat - 1) / limitNum.toNat
  let offset := ((pageNum - 1) * limitNum).toNat
  ((sortedMemes.drop offset).take limitNum.toNat,
    { page := pageNum, limit := limitNum, total := total, totalPages := totalPages,
      hasNext := decide (pageNum < (totalPages : Int)),
      hasPrev := decide (1 < pageNum) })

/-! ### Hot score (routes/gallery.ts, getHotScore) -/

/-- getHotScore from routes/gallery.ts: score = upvotes - downvotes,
order = log10(max(abs(score), 1)), sign in {1, -1, 0} by the sign of
score, seconds = createdAt / 1000 - 1704067200, and the result
sign * order + seconds / 45000.  Math.log10 is Real.logb 10. -/
noncomputable def getHotScore (upvotes downvotes : ℕ) (createdAt : ℤ) : ℝ :=
  let score : ℝ := (upvotes : ℝ) - (downvotes : ℝ)
  let order : ℝ := Real.logb 10 (max |score| 1)
  let sign : ℝ := if score > 0 then 1 else if score < 0 then -1 else 0
  let seconds : ℝ := (createdAt : ℝ) / 1000 - 1704067200
  sign * order + seconds / 45000

/-- Modelled from the spec words for the refinement comparison: given
score = upvotes - downvotes, order = log10(max(|score|, 1)),
sign = sign(score) (0 if score is 0), and
ageSeconds = (createdAt_ms / 1000) - 1704067200, the spec formula
hot = sign * order + ageSeconds / 45000. -/
noncomputable def specHotScore (upvotes downvotes : ℕ) (createdAt : ℤ) : ℝ :=
  let score : ℤ := (upvotes : ℤ) - (downvotes : ℤ)
  let order : ℝ := Real.logb 10 (max |(score : ℝ)| 1)
  let ageSeconds : ℝ := (createdAt : ℝ) / 1000 - 1704067200
  Real.sign (score : ℝ) * order + ageSeconds / 45000

/-- The fields of an enriched gallery meme that the hot comparator
reads. -/
structure GalleryItem where
  id : String
  upvotes : ℕ
  downvotes : ℕ
  created_at : ℤ
  deriving Repr

/-- The hot score of an enriched gallery meme. -/
noncomputable def hotOf (m : GalleryItem) : ℝ :=
  getHotScore m.upvotes m.downvotes m.created_at

/-- The order produced by the gallery hot comparator
(a, b) => hotB - hotA: a sorts no later than b when hot(b) <= hot(a),
i.e. descending hot score. -/
def hotDesc (a b : GalleryItem) : Prop :=
  hotOf b ≤ hotOf a

noncomputable instance : DecidableRel hotDesc :=
  fun a b => Real.decidableLE (hotOf b) (hotOf a)

/-- The sort the gallery route applies for sort=hot. -/
noncomputable def sortByHot (l : List GalleryItem) : List GalleryItem :=
  l.insertionSort hotDesc

/-- Scenario D meme: 3 upvotes, 1 downvote, created exactly at the hot
score epoch 2024-01-01T00:00:00Z (1704067200000 ms). -/
def memeAtEpoch : GalleryItem :=
  { id := "m1", upvotes := 3, downvotes := 1, created_at := 1704067200000 }

/-- Scenario D second meme: same votes, created 45000 seconds later. -/
def memeLater : GalleryItem :=
  { id := "m2", upvotes := 3, downvotes := 1, created_at := 1704112200000 }

/-! ## Shared lemmas -/

/-- find? over a map whose function does not change the tested
predicate commutes with the map. -/
theorem find?_map_key {α : Type} (p : α → Bool) (f : α → α)
    (hf : ∀ x, p (f x) = p x) (l : List α) :
    (l.map f).find? p = (l.find? p).map f := by
  induction l with
  | nil => rfl
  | cons a l ih =>
    cases h : p a with
    | true =>
      have h' : p (f a) = true := by rw [hf a]; exact h
      simp [List.find?_cons_of_pos, h, h']
    | false =>
      have h' : p (f a) = false := by rw [hf a]; exact h
      simp only [List.map_cons]
      rw [List.find?_cons_of_neg _ (by simp [h']), List.find?_cons_of_neg _ (by simp [h]), ih]

/-- findUserById after setRole: the lookup sees the row with the role
rewritten when its id is the updated one. -/
theorem findUserById_setRole (users : List User) (role id qid : String) :
    findUserById (setRole users role id) qid
      = (findUserById users qid).map
          (fun u => if u.id == id then { u with role := role } else u) := by
  apply find?_map_key
  intro u
  by_cases h : (u.id == id) = true <;> simp [h]

/-- findUserById after updateInviteRedeemed. -/
theorem findUserById_updateInviteRedeemed (users : List User) (id qid : String) :
    findUserById (updateInviteRedeemed users id) qid
      = (findUserById users qid).map
          (fun u => if u.id == id then { u with invite_redeemed := true } else u) := by
  apply find?_map_key
  intro u
  by_cases h : (u.id == id) = true <;> simp [h]

/-- findInviteByCode after the redeem UPDATE. -/
theorem findInviteByCode_redeemRows (invites : List InviteCode)
    (usedBy : String) (usedAt : Int) (code qcode : String) :
    findInviteByCode (redeemInviteRows invites usedBy usedAt code) qcode
      = (findInviteByCode invites qcode).map
          (fun i => if i.code == code
                    then { i with used_by := some usedBy, used_at := some usedAt } else i) := by
  apply find?_map_key
  intro i
  by_cases h : (i.code == code) = true <;> simp [h]

/-- findVoteByMemeAndUser after the vote_type UPDATE. -/
theorem findVote_updateVoteType (votes : List Vote) (vt : Int) (memeId userId : String) :
    findVoteByMemeAndUser (updateVoteType votes vt memeId userId) memeId userId
      = (findVoteByMemeAndUser votes memeId userId).map
          (fun v => if v.meme_id == memeId && v.user_id == userId
                    then { v with vote_type := vt } else v) := by
  apply find?_map_key
  intro v
  by_cases h : (v.meme_id == memeId && v.user_id == userId) = true
  · rw [if_pos h]
  · rw [if_neg h]

/-! ## C1 -/

/-- C1 (amended): invite redemption error handling.  A missing or empty
code is rejected 400 with the message "Invite code is required".  For a
non-empty code the input is normalized by trimming and upper-casing;
the format check runs before the access check, so every caller whose
normalized code is not 12 hex characters gets the generic 400
"Invalid invite code".  For a format-valid code, a caller who already
has invite_redeemed or role admin is rejected 400 with the distinct
message "You already have access"; otherwise the generic message is
returned both when no invite row matches and when the matching row is
already used, and in every error case the tables are unchanged. -/
theorem redeem_error_collapse (invites : List InviteCode) (users : List User)
    (user : User) (now : Int) :
    redeem invites users user none now
        = (.err 400 "Invite code is required", invites, users)
    ∧ redeem invites users user (some "") now
        = (.err 400 "Invite code is required", invites, users)
    ∧ (∀ c : String, c ≠ "" → isValidInviteCode (jsToUpper (jsTrim c)) = false →
        redeem invites users user (some c) now
          = (.err 400 "Invalid invite code", invites, users))
    ∧ (∀ c : String, c ≠ "" → isValidInviteCode (jsToUpper (jsTrim c)) = true →
        (user.invite_redeemed = true ∨ user.role = "admin") →
        redeem invites users user (some c) now
          = (.err 400 "You already have access", invites, users))
    ∧ (∀ c : String, c ≠ "" → isValidInviteCode (jsToUpper (jsTrim c)) = true →
        user.invite_redeemed = false → user.role ≠ "admin" →
        findInviteByCode invites (jsToUpper (jsTrim c)) = none →
        redeem invites users user (some c) now
          = (.err 400 "Invalid invite code", invites, users))
    ∧ (∀ (c : String) (invite : InviteCode) (w : String),
        c ≠ "" → isValidInviteCode (jsToUpper (jsTrim c)) = true →
        user.invite_redeemed = false → user.role ≠ "admin" →
        findInviteByCode invites (jsToUpper (jsTrim c)) = some invite →
        invite.used_by = some w →
        redeem invites users user (some c) now
          = (.err 400 "Invalid invite code", invites, users))
    ∧ ("You already have access" : String) ≠ "Invalid invite code" := by
  refine ⟨rfl, rfl, ?_, ?_, ?_, ?_, by decide⟩
  · intro c hc hval
    have hc' : (c == "") = false := beq_eq_false_iff_ne.mpr hc
    simp [redeem, hc', hval]
  · intro c hc hval hacc
    have hc' : (c == "") = false := beq_eq_false_iff_ne.mpr hc
    have hacc' : (user.invite_redeemed || user.role == "admin") = true := by
      rcases hacc with h | h <;> simp [h]
    simp [redeem, hc', hval, hacc']
  · intro c hc hval hred hrole hfind
    have hc' : (c == "") = false := beq_eq_false_iff_ne.mpr hc
    have hrole' : (user.role == "admin") = false := beq_eq_false_iff_ne.mpr hrole
    simp [redeem, hc', hval, hred, hrole', hfind]
  · intro c invite w hc hval hred hrole hfind hused
    have hc' : (c == "") = false := beq_eq_false_iff_ne.mpr hc
    have hrole' : (user.role == "admin") = false := beq_eq_false_iff_ne.mpr hrole
    simp [redeem, hc', hval, hred, hrole', hfind, hused]

/-- C1 counterexample to the claim as stated: with an empty code the
handler answers 400 "Invite code is required", not the generic message,
even though the normalized empty code fails the 12-hex format; and an
admin caller submitting the malformed code "xyz" receives the generic
"Invalid invite code", not a distinct message, because the format check
runs before the already-has-access check. -/
theorem redeem_error_collapse_cex :
    redeem [] [] { id := "u1", role := "user", invite_redeemed := false } (some "") 0
        = (.err 400 "Invite code is required", [], [])
    ∧ ("Invite code is required" : String) ≠ "Invalid invite code"
    ∧ redeem [] [] { id := "a1", role := "admin", invite_redeemed := false } (some "xyz") 0
        = (.err 400 "Invalid invite code", [], [])
    ∧ ("Invalid invite code" : String) ≠ "You already have access" := by
  refine ⟨rfl, by decide, by decide, by decide⟩

/-- C1 witness: the amended theorem applied to a concrete malformed
code. -/
theorem redeem_error_collapse_witness :
    redeem [] [] { id := "u1", role := "user", invite_redeemed := false } (some "zz") 0
      = (.err 400 "Invalid invite code", [], []) :=
  (redeem_error_collapse [] [] { id := "u1", role := "user", invite_redeemed := false } 0).2.2.1
    "zz" (by decide) (by decide)

/-! ## C4 -/

/-- C4: the first-admin bootstrap succeeds exactly when zero admin
users exist and the caller is authenticated; on success the caller row
gets role admin and invite_redeemed true; whenever an admin already
exists the call fails 403 "Admin already exists" with the table
unchanged, and with no admin but no session it fails 401 with the
table unchanged. -/
theorem bootstrap_first_admin (users : List User) (caller : Option User) :
    ((bootstrap users caller).1 = .ok "You are now an admin" ↔
      ((users.filter (fun u => u.role == "admin")).length = 0 ∧ caller.isSome = true))
    ∧ ((users.filter (fun u => u.role == "admin")).length > 0 →
        bootstrap users caller = (.err 403 "Admin already exists", users))
    ∧ ((users.filter (fun u => u.role == "admin")).length = 0 → caller = none →
        bootstrap users caller
          = (.err 401 "Must be authenticated to bootstrap admin", users))
    ∧ (∀ u : User, caller = some u →
        (users.filter (fun x => x.role == "admin")).length = 0 →
        ((bootstrap users caller).2
            = updateInviteRedeemed (setRole users "admin" u.id) u.id
          ∧ (findUserById users u.id = some u →
              findUserById (bootstrap users caller).2 u.id
                = some { u with role := "admin", invite_redeemed := true }))) := by
  refine ⟨?_, ?_, ?_, ?_⟩
  · by_cases h : (users.filter (fun u => u.role == "admin")).length = 0
    · cases caller with
      | none => simp [bootstrap, h]
      | some u => simp [bootstrap, h]
    · have h' : 0 < (users.filter (fun u => u.role == "admin")).length :=
        Nat.pos_of_ne_zero h
      simp [bootstrap, h', h]
  · intro h
    simp [bootstrap, h]
  · intro h hc
    subst hc
    simp [bootstrap, h]
  · intro u hc h0
    subst hc
    have e1 : (bootstrap users (some u)).2
        = updateInviteRedeemed (setRole users "admin" u.id) u.id := by
      simp [bootstrap, h0]
    refine ⟨e1, ?_⟩
    intro hfind
    rw [e1, findUserById_updateInviteRedeemed, findUserById_setRole, hfind]
    simp

/-- C4 witness: a single ordinary user bootstraps and their row becomes
an admin with the invite flag set; a second call then gets 403. -/
theorem bootstrap_first_admin_witness :
    findUserById
        (bootstrap [{ id := "u4", role := "user", invite_redeemed := false }]
          (some { id := "u4", role := "user", invite_redeemed := false })).2 "u4"
      = some { id := "u4", role := "admin", invite_redeemed := true }
    ∧ bootstrap [{ id := "u4", role := "admin", invite_redeemed := true }]
          (some { id := "u5", role := "user", invite_redeemed := false })
        = (.err 403 "Admin already exists",
            [{ id := "u4", role := "admin", invite_redeemed := true }]) := by
  constructor
  · exact
      ((bootstrap_first_admin [{ id := "u4", role := "user", invite_redeemed := false }]
          (some { id := "u4", role := "user", invite_redeemed := false })).2.2.2
        { id := "u4", role := "user", invite_redeemed := false } rfl (by decide)).2 (by decide)
  · exact
      (bootstrap_first_admin [{ id := "u4", role := "admin", invite_redeemed := true }]
          (some { id := "u5", role := "user", invite_redeemed := false })).2.1 (by decide)

/-! ## C10 -/

/-- C10: the admin role-update endpoint refuses self-demotion — an
admin targeting their own id with a valid role other than admin gets
400 "Cannot demote yourself", the users table is unchanged, and in
particular the number of admin rows is unchanged, so this call can
never remove the last admin by an admin acting on themselves. -/
theorem role_update_no_self_demotion (users : List User) (admin target : User)
    (role : String)
    (hadmin : admin.role = "admin")
    (hid : isValidId admin.id = true)
    (hvalid : role = "admin" ∨ role = "user")
    (hne : role ≠ "admin")
    (hfound : findUserById users admin.id = some target) :
    patchUserRole users (some admin) admin.id (some role)
        = (.err 400 "Cannot demote yourself", users)
    ∧ ((patchUserRole users (some admin) admin.id (some role)).2.filter
          (fun u => u.role == "admin")).length
        = (users.filter (fun u => u.role == "admin")).length := by
  have hrole : role = "user" := by
    rcases hvalid with h | h
    · exact absurd h hne
    · exact h
  subst hrole
  have hmain : patchUserRole users (some admin) admin.id (some "user")
      = (.err 400 "Cannot demote yourself", users) := by
    simp [patchUserRole, updateUserRole, hadmin, hid, hfound]
  exact ⟨hmain, by rw [hmain]⟩

/-- C10 witness: a concrete sole admin cannot demote themselves. -/
theorem role_update_no_self_demotion_witness :
    patchUserRole [{ id := "a1", role := "admin", invite_redeemed := true }]
        (some { id := "a1", role := "admin", invite_redeemed := true }) "a1" (some "user")
      = (.err 400 "Cannot demote yourself",
          [{ id := "a1", role := "admin", invite_redeemed := true }]) :=
  (role_update_no_self_demotion
      [{ id := "a1", role := "admin", invite_redeemed := true }]
      { id := "a1", role := "admin", invite_redeemed := true }
      { id := "a1", role := "admin", invite_redeemed := true }
      "user" rfl (by decide) (Or.inr rfl) (by decide) (by decide)).1

/-! ## C6 -/

/-- C6: on a vote cast with a well-formed meme id and a valid vote
value, a missing meme yields 404 "Meme not found" and a non-public meme
yields 403 "Can only vote on public memes", and in both cases the votes
table is returned unchanged, so no Vote row is created. -/
theorem cast_vote_absent_or_private (memes : List Meme) (votes : List Vote) (user : User)
    (memeId newId : String) (vote now : Int)
    (hid : isValidId memeId = true) (hvote : vote = 1 ∨ vote = -1) :
    (findMemeById memes memeId = none →
      castVote memes votes user memeId vote newId now = (.err 404 "Meme not found", votes))
    ∧ (∀ meme : Meme, findMemeById memes memeId = some meme → meme.is_public = false →
        castVote memes votes user memeId vote newId now
          = (.err 403 "Can only vote on public memes", votes)) := by
  have hv : (vote != 1 && vote != -1) = false := by
    rcases hvote with rfl | rfl <;> decide
  constructor
  · intro h
    simp [castVote, hid, hv, h]
  · intro meme h hpub
    simp [castVote, hid, hv, h, hpub]

/-- C6 witness: voting on a private meme and on an absent meme, both on
an empty votes table. -/
theorem cast_vote_absent_or_private_witness :
    castVote [{ id := "m", is_public := false, created_at := 0 }] []
        { id := "u", role := "user", invite_redeemed := true } "m" 1 "v1" 5
      = (.err 403 "Can only vote on public memes", [])
    ∧ castVote [] [] { id := "u", role := "user", invite_redeemed := true } "m" 1 "v1" 5
      = (.err 404 "Meme not found", []) := by
  constructor
  · exact (cast_vote_absent_or_private _ _ _ _ _ _ _ (by decide) (Or.inl rfl)).2
      { id := "m", is_public := false, created_at := 0 } (by decide) rfl
  · exact (cast_vote_absent_or_private _ _ _ _ _ _ _ (by decide) (Or.inl rfl)).1 (by decide)

/-! ## C8 -/

/-- C8: on an existing meme, the vote remove route always answers with
the counts recomputed from the table without the (meme, user) row and
with userVote none; afterwards no row for the pair remains, and when no
row for the pair existed the table is unchanged (no error either
way). -/
theorem remove_vote_spec (memes : List Meme) (votes : List Vote) (user : User)
    (memeId : String) (meme : Meme)
    (hid : isValidId memeId = true)
    (hmeme : findMemeById memes memeId = some meme) :
    removeVote memes votes user memeId
        = (.ok (voteRespOf (deleteVote votes memeId user.id) memeId none),
            deleteVote votes memeId user.id)
    ∧ findVoteByMemeAndUser (deleteVote votes memeId user.id) memeId user.id = none
    ∧ (findVoteByMemeAndUser votes memeId user.id = none →
        deleteVote votes memeId user.id = votes) := by
  refine ⟨?_, ?_, ?_⟩
  · simp [removeVote, hid, hmeme]
  · apply List.find?_eq_none.mpr
    intro v hv
    have h2 : (!(v.meme_id == memeId && v.user_id == user.id)) = true :=
      (List.mem_filter.mp hv).2
    simp only [Bool.not_eq_true'] at h2
    simp [h2]
  · intro h
    have h' := List.find?_eq_none.mp h
    apply List.filter_eq_self.mpr
    intro v hv
    have h2 := h' v hv
    simp only [Bool.not_eq_true] at h2
    simp [h2]

/-- C8 witness: removing the single existing vote row, through the
theorem. -/
theorem remove_vote_spec_witness :
    removeVote [{ id := "m", is_public := true, created_at := 0 }]
        [{ id := "v1", meme_id := "m", user_id := "u", vote_type := 1, created_at := 1 }]
        { id := "u", role := "user", invite_redeemed := true } "m"
      = (.ok { upvotes := 0, downvotes := 0, score := 0, userVote := none }, []) := by
  have h := remove_vote_spec [{ id := "m", is_public := true, created_at := 0 }]
      [{ id := "v1", meme_id := "m", user_id := "u", vote_type := 1, created_at := 1 }]
      { id := "u", role := "user", invite_redeemed := true } "m"
      { id := "m", is_public := true, created_at := 0 } (by decide) (by decide)
  rw [h.1]
  rfl

/-! ## C7 -/

/-- C7: casting the same vote type twice on a public meme leaves the
votes table of the first call unchanged on the second call, both calls
answer the same body, and that body is ok with the counts recomputed
from the resulting table (count of +1 rows, count of -1 rows, their
difference) and userVote equal to the cast type. -/
theorem cast_vote_idempotent (memes : List Meme) (votes : List Vote) (user : User)
    (memeId newId1 newId2 : String) (vote now1 now2 : Int) (meme : Meme)
    (hid : isValidId memeId = true)
    (hvote : vote = 1 ∨ vote = -1)
    (hmeme : findMemeById memes memeId = some meme)
    (hpub : meme.is_public = true) :
    (castVote memes (castVote memes votes user memeId vote newId1 now1).2 user memeId vote
        newId2 now2).2
      = (castVote memes votes user memeId vote newId1 now1).2
    ∧ (castVote memes (castVote memes votes user memeId vote newId1 now1).2 user memeId vote
        newId2 now2).1
      = (castVote memes votes user memeId vote newId1 now1).1
    ∧ (castVote memes votes user memeId vote newId1 now1).1
      = .ok (voteRespOf (castVote memes votes user memeId vote newId1 now1).2 memeId
          (some vote)) := by
  have hv : (vote != 1 && vote != -1) = false := by
    rcases hvote with rfl | rfl <;> decide
  cases h1 : findVoteByMemeAndUser votes memeId user.id with
  | none =>
    have e1 : castVote memes votes user memeId vote newId1 now1
        = (.ok (voteRespOf (createVote votes
              { id := newId1, meme_id := memeId, user_id := user.id,
                vote_type := vote, created_at := now1 }) memeId (some vote)),
            createVote votes
              { id := newId1, meme_id := memeId, user_id := user.id,
                vote_type := vote, created_at := now1 }) := by
      simp [castVote, hid, hv, hmeme, hpub, h1]
    have hfind2 : findVoteByMemeAndUser (createVote votes
          { id := newId1, meme_id := memeId, user_id := user.id,
            vote_type := vote, created_at := now1 }) memeId user.id
        = some ({ id := newId1, meme_id := memeId, user_id := user.id,
                  vote_type := vote, created_at := now1 } : Vote) := by
      unfold findVoteByMemeAndUser createVote
      rw [List.find?_append]
      unfold findVoteByMemeAndUser at h1
      rw [h1]
      simp
    have e2 : castVote memes (createVote votes
          { id := newId1, meme_id := memeId, user_id := user.id,
            vote_type := vote, created_at := now1 }) user memeId vote newId2 now2
        = (.ok (voteRespOf (createVote votes
              { id := newId1, meme_id := memeId, user_id := user.id,
                vote_type := vote, created_at := now1 }) memeId (some vote)),
            createVote votes
              { id := newId1, meme_id := memeId, user_id := user.id,
                vote_type := vote, created_at := now1 }) := by
      simp [castVote, hid, hv, hmeme, hpub, hfind2]
    refine ⟨?_, ?_, ?_⟩ <;> simp [e1, e2]
  | some ev =>
    have hpred : (ev.meme_id == memeId && ev.user_id == user.id) = true := by
      unfold findVoteByMemeAndUser at h1
      exact List.find?_some
        (p := fun v : Vote => v.meme_id == memeId && v.user_id == user.id) h1
    by_cases hsame : (ev.vote_type == vote) = true
    · have e1 : castVote memes votes user memeId vote newId1 now1
          = (.ok (voteRespOf votes memeId (some vote)), votes) := by
        simp [castVote, hid, hv, hmeme, hpub, h1, hsame]
      have e2 : castVote memes votes user memeId vote newId2 now2
          = (.ok (voteRespOf votes memeId (some vote)), votes) := by
        simp [castVote, hid, hv, hmeme, hpub, h1, hsame]
      refine ⟨?_, ?_, ?_⟩ <;> simp [e1, e2]
    · have e1 : castVote memes votes user memeId vote newId1 now1
          = (.ok (voteRespOf (updateVoteType votes vote memeId user.id) memeId (some vote)),
              updateVoteType votes vote memeId user.id) := by
        simp [castVote, hid, hv, hmeme, hpub, h1, hsame]
      have hfind2 : findVoteByMemeAndUser (updateVoteType votes vote memeId user.id)
            memeId user.id
          = some { ev with vote_type := vote } := by
        rw [findVote_updateVoteType, h1]
        simp only [Option.map_some']
        rw [if_pos hpred]
      have e2 : castVote memes (updateVoteType votes vote memeId user.id) user memeId vote
            newId2 now2
          = (.ok (voteRespOf (updateVoteType votes vote memeId user.id) memeId (some vote)),
              updateVoteType votes vote memeId user.id) := by
        simp [castVote, hid, hv, hmeme, hpub, hfind2]
      refine ⟨?_, ?_, ?_⟩ <;> simp [e1, e2]

/-- C7 witness: casting an upvote twice on a fresh public meme, through
the theorem. -/
theorem cast_vote_idempotent_witness :
    (castVote [{ id := "m", is_public := true, created_at := 0 }]
        (castVote [{ id := "m", is_public := true, created_at := 0 }] []
          { id := "u", role := "user", invite_redeemed := true } "m" 1 "a" 5).2
        { id := "u", role := "user", invite_redeemed := true } "m" 1 "b" 6).2
      = (castVote [{ id := "m", is_public := true, created_at := 0 }] []
          { id := "u", role := "user", invite_redeemed := true } "m" 1 "a" 5).2 :=
  (cast_vote_idempotent [{ id := "m", is_public := true, created_at := 0 }] []
      { id := "u", role := "user", invite_redeemed := true } "m" "a" "b" 1 5 6
      { id := "m", is_public := true, created_at := 0 }
      (by decide) (Or.inl rfl) (by decide) rfl).1

/-! ## C2 -/

/-- The vote_type UPDATE keeps the keys of every row, so it preserves
the UNIQUE(meme_id, user_id) constraint. -/
theorem votesUnique_updateVoteType (votes : List Vote) (vt : Int) (m u : String)
    (h : votesUnique votes) : votesUnique (updateVoteType votes vt m u) := by
  unfold votesUnique updateVoteType
  rw [List.pairwise_map]
  apply h.imp
  intro a b hab
  by_cases ha : (a.meme_id == m && a.user_id == u) = true
  · by_cases hb : (b.meme_id == m && b.user_id == u) = true
    · rw [if_pos ha, if_pos hb]; exact hab
    · rw [if_pos ha, if_neg hb]; exact hab
  · by_cases hb : (b.meme_id == m && b.user_id == u) = true
    · rw [if_neg ha, if_pos hb]; exact hab
    · rw [if_neg ha, if_neg hb]; exact hab

/-- The DELETE keeps a sublist, so it preserves the constraint. -/
theorem votesUnique_deleteVote (votes : List Vote) (m u : String)
    (h : votesUnique votes) : votesUnique (deleteVote votes m u) :=
  h.sublist (List.filter_sublist votes)

/-- The INSERT performed by the cast route only happens when the
(meme, user) lookup found nothing, so appending the new row preserves
the constraint. -/
theorem votesUnique_createVote (votes : List Vote) (v : Vote)
    (h : votesUnique votes)
    (hnone : findVoteByMemeAndUser votes v.meme_id v.user_id = none) :
    votesUnique (createVote votes v) := by
  unfold votesUnique createVote
  rw [List.pairwise_append]
  refine ⟨h, List.pairwise_singleton _ _, ?_⟩
  intro a ha b hb
  have hb' : b = v := List.mem_singleton.mp hb
  subst hb'
  unfold findVoteByMemeAndUser at hnone
  have ha' := List.find?_eq_none.mp hnone a ha
  simp only [Bool.and_eq_true, beq_iff_eq] at ha'
  exact fun hc => ha' ⟨hc.1, hc.2⟩

/-- Every branch of the cast handler preserves the constraint. -/
theorem votesUnique_castVote (memes : List Meme) (votes : List Vote) (user : User)
    (memeId : String) (vote : Int) (newId : String) (now : Int)
    (h : votesUnique votes) :
    votesUnique (castVote memes votes user memeId vote newId now).2 := by
  unfold castVote
  split
  · exact h
  · split
    · exact h
    · split
      · exact h
      · split
        · exact h
        · split
          · split
            · exact h
            · exact votesUnique_updateVoteType votes vote memeId user.id h
          · rename_i heq
            exact votesUnique_createVote votes _ h heq

/-- Every branch of the remove handler preserves the constraint. -/
theorem votesUnique_removeVote (memes : List Meme) (votes : List Vote) (user : User)
    (memeId : String) (h : votesUnique votes) :
    votesUnique (removeVote memes votes user memeId).2 := by
  unfold removeVote
  split
  · exact h
  · split
    · exact h
    · exact votesUnique_deleteVote votes memeId user.id h

/-- C2: starting from a votes table satisfying the schema constraint
UNIQUE(meme_id, user_id), any sequence of cast and remove requests
keeps at most one Vote row per (meme, user) pair; and a cast that finds
an existing vote of the opposite type rewrites that row's vote_type in
place — the resulting table is exactly the UPDATE of the old one and
has the same number of rows, so no second row is ever inserted. -/
theorem vote_rows_unique (memes : List Meme) (votes : List Vote) (ops : List VoteOp)
    (h : votesUnique votes) :
    votesUnique (applyVoteOps memes votes ops)
    ∧ (∀ (user : User) (memeId newId : String) (vote now : Int) (ev : Vote) (meme : Meme),
        isValidId memeId = true → (vote = 1 ∨ vote = -1) →
        findMemeById memes memeId = some meme → meme.is_public = true →
        findVoteByMemeAndUser votes memeId user.id = some ev →
        (ev.vote_type == vote) = false →
        ((castVote memes votes user memeId vote newId now).2
            = updateVoteType votes vote memeId user.id
          ∧ ((castVote memes votes user memeId vote newId now).2).length = votes.length)) := by
  constructor
  · induction ops generalizing votes with
    | nil => exact h
    | cons op ops ih =>
      cases op with
      | cast user memeId vote newId now =>
        exact ih _ (votesUnique_castVote memes votes user memeId vote newId now h)
      | remove user memeId =>
        exact ih _ (votesUnique_removeVote memes votes user memeId h)
  · intro user memeId newId vote now ev meme hid hvote hmeme hpub hfind hne
    have hv : (vote != 1 && vote != -1) = false := by
      rcases hvote with rfl | rfl <;> decide
    have e : (castVote memes votes user memeId vote newId now).2
        = updateVoteType votes vote memeId user.id := by
      simp [castVote, hid, hv, hmeme, hpub, hfind, hne]
    refine ⟨e, ?_⟩
    rw [e]
    simp [updateVoteType]

/-- C2 witness: the invariant holds concretely after a cast, an
opposite cast and a remove on an initially empty table. -/
theorem vote_rows_unique_witness :
    votesUnique (applyVoteOps [{ id := "m", is_public := true, created_at := 0 }] []
      [.cast { id := "u", role := "user", invite_redeemed := true } "m" 1 "a" 5,
       .cast { id := "u", role := "user", invite_redeemed := true } "m" (-1) "b" 6,
       .remove { id := "u", role := "user", invite_redeemed := true } "m"]) :=
  (vote_rows_unique [{ id := "m", is_public := true, created_at := 0 }] []
    [.cast { id := "u", role := "user", invite_redeemed := true } "m" 1 "a" 5,
     .cast { id := "u", role := "user", invite_redeemed := true } "m" (-1) "b" 6,
     .remove { id := "u", role := "user", invite_redeemed := true } "m"]
    List.Pairwise.nil).1

/-! ## C9 -/

/-- Ceiling division by l compares to p exactly when p pages of l rows
do not cover t rows. -/
theorem lt_ceilDiv_iff (p t l : ℕ) (hl : 1 ≤ l) : p < (t + l - 1) / l ↔ p * l < t := by
  rw [Nat.lt_iff_add_one_le, Nat.le_div_iff_mul_le hl, add_mul, one_mul]
  generalize p * l = x
  omega

/-- The hasNext field is set exactly when the slice at
offset (page - 1) * limit leaves rows behind. -/
theorem paginateGallery_hasNext {α : Type} (l : List α) (page limit : Int)
    (hp : 1 ≤ page) (hl : 1 ≤ limit) :
    ((paginateGallery l page limit).2.hasNext = true ↔ page * limit < (l.length : Int)) := by
  obtain ⟨pN, rfl⟩ : ∃ n : ℕ, page = (n : Int) :=
    ⟨page.toNat, (Int.toNat_of_nonneg (by omega)).symm⟩
  obtain ⟨lN, rfl⟩ : ∃ n : ℕ, limit = (n : Int) :=
    ⟨limit.toNat, (Int.toNat_of_nonneg (by omega)).symm⟩
  have hlN : 1 ≤ lN := by exact_mod_cast hl
  simp only [paginateGallery, decide_eq_true_eq, Int.toNat_natCast]
  constructor
  · intro hlt
    have h1 : pN < (l.length + lN - 1) / lN := by exact_mod_cast hlt
    have h2 := (lt_ceilDiv_iff pN l.length lN hlN).mp h1
    exact_mod_cast h2
  · intro hlt
    have h1 : pN * lN < l.length := by exact_mod_cast hlt
    have h2 := (lt_ceilDiv_iff pN l.length lN hlN).mpr h1
    exact_mod_cast h2

/-- C9 (amended): the gallery clamps the effective limit to at most 50
and at least 1 — limit=1000 becomes 50 and any negative limit becomes
1 — but limit=0 is JS-falsy in parseInt(limit, 10) || 20 and falls back
to the default 20 instead of 1; the page is clamped to at least 1; and
the response's pagination fields are consistent with slicing the
sorted public memes at offset (page - 1) * limit: items are exactly
that slice, at most limit of them, total is the list length, hasNext
holds exactly when rows remain beyond the slice and hasPrev exactly
when page exceeds 1. -/
theorem gallery_clamp_pagination :
    (∀ l : Option Int, 1 ≤ effLimit l ∧ effLimit l ≤ 50)
    ∧ effLimit (some 1000) = 50
    ∧ (∀ k : Int, k < 0 → effLimit (some k) = 1)
    ∧ effLimit (some 0) = 20
    ∧ (∀ p : Option Int, 1 ≤ effPage p)
    ∧ (∀ (sorted : List Meme) (p l : Option Int),
        (paginateGallery sorted (effPage p) (effLimit l)).1
            = (sorted.drop (((effPage p - 1) * effLimit l).toNat)).take (effLimit l).toNat
        ∧ (paginateGallery sorted (effPage p) (effLimit l)).2.page = effPage p
        ∧ (paginateGallery sorted (effPage p) (effLimit l)).2.limit = effLimit l
        ∧ (paginateGallery sorted (effPage p) (effLimit l)).2.total = sorted.length
        ∧ ((paginateGallery sorted (effPage p) (effLimit l)).2.hasNext = true ↔
            effPage p * effLimit l < (sorted.length : Int))
        ∧ ((paginateGallery sorted (effPage p) (effLimit l)).2.hasPrev = true ↔
            1 < effPage p)
        ∧ (paginateGallery sorted (effPage p) (effLimit l)).1.length
            ≤ (effLimit l).toNat) := by
  refine ⟨?_, by decide, ?_, by decide, ?_, ?_⟩
  · intro l
    exact ⟨le_min (by norm_num) (le_max_left 1 _), min_le_left _ _⟩
  · intro k hk
    simp only [effLimit, jsOrDefault]
    rw [if_neg (by omega), max_eq_left (by omega)]
    norm_num
  · intro p
    exact le_max_left 1 _
  · intro sorted p l
    have hp : 1 ≤ effPage p := le_max_left 1 _
    have hl : 1 ≤ effLimit l := le_min (by norm_num) (le_max_left 1 _)
    refine ⟨rfl, rfl, rfl, rfl, paginateGallery_hasNext sorted _ _ hp hl, ?_, ?_⟩
    · simp [paginateGallery, decide_eq_true_eq]
    · simp only [paginateGallery, List.length_take]
      exact min_le_left _ _

/-- C9 counterexample to the claim as stated: a request with limit=0
uses the default limit 20, not 1. -/
theorem gallery_limit_zero_cex : effLimit (some 0) = 20 ∧ (20 : Int) ≠ 1 := by
  decide

/-- C9 witness: a negative limit is clamped to 1, through the
theorem. -/
theorem gallery_clamp_pagination_witness : effLimit (some (-7)) = 1 :=
  gallery_clamp_pagination.2.2.1 (-7) (by decide)

/-! ## C5 -/

/-- C5: a successful redemption applies both effects together — the
invite row carrying the code gets used_by set to the redeemer and
used_at set to the redemption time, and the redeeming user's
invite_redeemed flag is set — and every call either fails leaving both
tables exactly as they were or succeeds applying both updates (one
logical transaction); a second redeem of the same code by a different
eligible user then receives the generic 400 "Invalid invite code" and
leaves the first redemption's state unchanged. -/
theorem redeem_atomic_roundtrip (invites : List InviteCode) (users : List User)
    (u2 u3 : User) (c : String) (invite : InviteCode) (now now2 : Int)
    (hval : isValidInviteCode (jsToUpper (jsTrim c)) = true)
    (h2r : u2.invite_redeemed = false) (h2a : u2.role ≠ "admin")
    (h3r : u3.invite_redeemed = false) (h3a : u3.role ≠ "admin")
    (hfind : findInviteByCode invites (jsToUpper (jsTrim c)) = some invite)
    (hunused : invite.used_by = none) :
    redeem invites users u2 (some c) now
        = (.ok "Invite code redeemed successfully",
            redeemInviteRows invites u2.id now (jsToUpper (jsTrim c)),
            updateInviteRedeemed users u2.id)
    ∧ findInviteByCode (redeemInviteRows invites u2.id now (jsToUpper (jsTrim c)))
          (jsToUpper (jsTrim c))
        = some { invite with used_by := some u2.id, used_at := some now }
    ∧ (findUserById users u2.id = some u2 →
        findUserById (updateInviteRedeemed users u2.id) u2.id
          = some { u2 with invite_redeemed := true })
    ∧ redeem (redeemInviteRows invites u2.id now (jsToUpper (jsTrim c)))
          (updateInviteRedeemed users u2.id) u3 (some c) now2
        = (.err 400 "Invalid invite code",
            redeemInviteRows invites u2.id now (jsToUpper (jsTrim c)),
            updateInviteRedeemed users u2.id)
    ∧ (∀ (inv : List InviteCode) (us : List User) (u : User) (code : Option String) (t : Int),
        ((redeem inv us u code t).2.1 = inv ∧ (redeem inv us u code t).2.2 = us)
        ∨ (∃ s : String, code = some s
            ∧ redeem inv us u code t
              = (.ok "Invite code redeemed successfully",
                  redeemInviteRows inv u.id t (jsToUpper (jsTrim s)),
                  updateInviteRedeemed us u.id))) := by
  have hcne : (c == "") = false := by
    by_cases hc : c = ""
    · subst hc
      exact absurd hval (by decide)
    · exact beq_eq_false_iff_ne.mpr hc
  have h2a' : (u2.role == "admin") = false := beq_eq_false_iff_ne.mpr h2a
  have h3a' : (u3.role == "admin") = false := beq_eq_false_iff_ne.mpr h3a
  have hcode : (invite.code == jsToUpper (jsTrim c)) = true := by
    unfold findInviteByCode at hfind
    exact List.find?_some (p := fun i : InviteCode => i.code == jsToUpper (jsTrim c)) hfind
  have hfind2 : findInviteByCode (redeemInviteRows invites u2.id now (jsToUpper (jsTrim c)))
        (jsToUpper (jsTrim c))
      = some { invite with used_by := some u2.id, used_at := some now } := by
    rw [findInviteByCode_redeemRows, hfind]
    simp only [Option.map_some']
    rw [if_pos hcode]
  refine ⟨?_, hfind2, ?_, ?_, ?_⟩
  · simp [redeem, hcne, hval, h2r, h2a', hfind, hunused]
  · intro hfu
    rw [findUserById_updateInviteRedeemed, hfu]
    simp
  · simp [redeem, hcne, hval, h3r, h3a', hfind2]
  · intro inv us u code t
    cases code with
    | none => exact Or.inl ⟨rfl, rfl⟩
    | some s =>
      by_cases hs : (s == "") = true
      · exact Or.inl (by simp [redeem, hs])
      · have hs' : (s == "") = false := eq_false_of_ne_true hs
        by_cases hv2 : isValidInviteCode (jsToUpper (jsTrim s)) = true
        · by_cases hacc : (u.invite_redeemed || u.role == "admin") = true
          · exact Or.inl (by simp [redeem, hs', hv2, hacc])
          · have hacc' : (u.invite_redeemed || u.role == "admin") = false :=
              eq_false_of_ne_true hacc
            cases hf : findInviteByCode inv (jsToUpper (jsTrim s)) with
            | none => exact Or.inl (by simp [redeem, hs', hv2, hacc', hf])
            | some i0 =>
              cases hu : i0.used_by with
              | none =>
                exact Or.inr ⟨s, rfl, by simp [redeem, hs', hv2, hacc', hf, hu]⟩
              | some w => exact Or.inl (by simp [redeem, hs', hv2, hacc', hf, hu])
        · have hv2' : isValidInviteCode (jsToUpper (jsTrim s)) = false :=
            eq_false_of_ne_true hv2
          exact Or.inl (by simp [redeem, hs', hv2'])

/-- C5 witness: scenario A — the lowercase form of a stored code is
normalized and redeemed, through the theorem. -/
theorem redeem_atomic_roundtrip_witness :
    redeem [{ id := "i1", code := "A1B2C3D4E5F6", created_by := some "u1", used_by := none,
              created_at := 0, used_at := none }]
        [{ id := "u2", role := "user", invite_redeemed := false }]
        { id := "u2", role := "user", invite_redeemed := false } (some "a1b2c3d4e5f6") 7
      = (.ok "Invite code redeemed successfully",
          redeemInviteRows
            [{ id := "i1", code := "A1B2C3D4E5F6", created_by := some "u1", used_by := none,
               created_at := 0, used_at := none }] "u2" 7 (jsToUpper (jsTrim "a1b2c3d4e5f6")),
          updateInviteRedeemed
            [{ id := "u2", role := "user", invite_redeemed := false }] "u2") :=
  (redeem_atomic_roundtrip
      [{ id := "i1", code := "A1B2C3D4E5F6", created_by := some "u1", used_by := none,
         created_at := 0, used_at := none }]
      [{ id := "u2", role := "user", invite_redeemed := false }]
      { id := "u2", role := "user", invite_redeemed := false }
      { id := "u3", role := "user", invite_redeemed := false }
      "a1b2c3d4e5f6"
      { id := "i1", code := "A1B2C3D4E5F6", created_by := some "u1", used_by := none,
        created_at := 0, used_at := none }
      7 8 (by decide) rfl (by decide) rfl (by decide) (by decide) rfl).1

/-! ## C3 -/

/-- C3: the gallery hot score agrees exactly with the spec formula
sign(u - d) * log10(max(|u - d|, 1)) + ((createdAt_ms / 1000) -
1704067200) / 45000 for all inputs; a meme with 3 upvotes and 1
downvote created at the epoch instant scores log10(2), which lies
strictly between 0.301 and 0.302; the same meme created 45000 seconds
later scores exactly one more, and the gallery hot sort places it
first. -/
theorem hot_score_spec :
    (∀ (u d : ℕ) (t : ℤ), getHotScore u d t = specHotScore u d t)
    ∧ getHotScore 3 1 1704067200000 = Real.logb 10 2
    ∧ (301 / 1000 : ℝ) < Real.logb 10 2
    ∧ Real.logb 10 2 < (302 / 1000 : ℝ)
    ∧ getHotScore 3 1 1704112200000 = Real.logb 10 2 + 1
    ∧ hotOf memeAtEpoch < hotOf memeLater
    ∧ sortByHot [memeAtEpoch, memeLater] = [memeLater, memeAtEpoch] := by
  have heq : ∀ (u d : ℕ) (t : ℤ), getHotScore u d t = specHotScore u d t := by
    intro u d t
    simp only [getHotScore, specHotScore]
    have hcast : ((((u:ℤ) - (d:ℤ)):ℤ):ℝ) = (u:ℝ) - (d:ℝ) := by push_cast; ring
    rw [hcast]
    rcases lt_trichotomy ((u:ℝ) - (d:ℝ)) 0 with h | h | h
    · rw [Real.sign_of_neg h, if_neg (not_lt.mpr h.le), if_pos h]
    · rw [h, Real.sign_zero]
      norm_num
    · rw [Real.sign_of_pos h, if_pos h]
  have e1 : getHotScore 3 1 1704067200000 = Real.logb 10 2 := by
    simp only [getHotScore]
    norm_num
  have e2 : getHotScore 3 1 1704112200000 = Real.logb 10 2 + 1 := by
    simp only [getHotScore]
    norm_num
  have hotlt : hotOf memeAtEpoch < hotOf memeLater := by
    show getHotScore 3 1 1704067200000 < getHotScore 3 1 1704112200000
    rw [e1, e2]
    linarith
  have hlog10 : (0:ℝ) < Real.log 10 := Real.log_pos (by norm_num)
  refine ⟨heq, e1, ?_, ?_, e2, hotlt, ?_⟩
  · rw [show Real.logb 10 2 = Real.log 2 / Real.log 10 from rfl, lt_div_iff₀ hlog10]
    have key : Real.log ((10:ℝ) ^ (301:ℕ)) < Real.log ((2:ℝ) ^ (1000:ℕ)) :=
      Real.log_lt_log (by positivity) (by norm_num)
    rw [Real.log_pow, Real.log_pow] at key
    push_cast at key
    linarith
  · rw [show Real.logb 10 2 = Real.log 2 / Real.log 10 from rfl, div_lt_iff₀ hlog10]
    have key : Real.log ((2:ℝ) ^ (1000:ℕ)) < Real.log ((10:ℝ) ^ (302:ℕ)) :=
      Real.log_lt_log (by positivity) (by norm_num)
    rw [Real.log_pow, Real.log_pow] at key
    push_cast at key
    linarith
  · unfold sortByHot
    simp only [List.insertionSort, List.orderedInsert]
    rw [if_neg (show ¬ hotDesc memeAtEpoch memeLater from not_le.mpr hotlt)]

end Possumbly
